import Mathlib

/-!
Shallow embedding of the payment-confirmation and fulfillment core of the
DiscordShopBot repository (src/main.py), together with theorems settling the
frozen claims about it.

Modelling conventions:
* MongoDB collections are association lists keyed by the document `_id`
  (the `_id` field carries a unique index, so `replace_one`/`delete_one`
  with an `_id` filter touch the unique matching document).
* Python `dict` values read from documents are association lists as well;
  `alookup` is first-match lookup.
* The global `db` handle, which is `None` when `MONGO_URI` is absent, is an
  `Option DB` argument threaded through every wrapper.
* External library calls whose results the code merely branches on
  (`stripe.Webhook.construct_event`) are inputs to the embedded handler.
* `print` calls are collected as a list of log lines; Discord API calls
  (`get_member`, `get_role`, `add_roles`, `member.send`, channel operations)
  are collected as explicit effect traces.
-/

namespace DiscordShopBot

/-- First-match lookup in an association list (Python `dict[k]` / `.get(k)`,
and MongoDB `find_one` on the unique `_id` key). -/
def alookup (k : String) : List (String × α) → Option α
  | [] => none
  | (k', v) :: rest => if k' = k then some v else alookup k rest

/-- Replace the value stored under `k`, or append the pair when `k` is absent:
MongoDB `replace_one({'_id': k}, v, upsert=True)`. -/
def aset (k : String) (v : α) : List (String × α) → List (String × α)
  | [] => [(k, v)]
  | (k', v') :: rest => if k' = k then (k, v) :: rest else (k', v') :: aset k v rest

/-- Remove the document stored under `k`: MongoDB `delete_one({'_id': k})`
(the `_id` unique index guarantees at most one match). -/
def aremove (k : String) (l : List (String × α)) : List (String × α) :=
  l.filter (fun p => p.1 ≠ k)

/-- Python `d = g.copy(); d.update(s)`: keys of `g` keep their position with
values overridden by `s`, keys only in `s` are appended. -/
def dict_update (g s : List (String × α)) : List (String × α) :=
  g.map (fun p => (p.1, (alookup p.1 s).getD p.2)) ++
    s.filter (fun p => (alookup p.1 g).isNone)

/-- A product document: `{'price': …, 'role_id': …, 'role_name': …, 'links': …}`
(the `_id` field equals the key under which the document is stored). -/
structure Product where
  price : String
  role_id : Nat
  role_name : String
  links : List (String × String)
deriving DecidableEq, Repr

/-- The MongoDB database state: the `products` collection keyed by product
name, and the single `global_payments` document of the `payments` collection
(`none` when that document has never been created). -/
structure DB where
  products : List (String × Product)
  paymentsDoc : Option (List (String × String))
deriving DecidableEq, Repr

/-- `get_all_products()`: `{}` when `db is None`, else the collection as a
dict keyed by `_id`. -/
def get_all_products : Option DB → List (String × Product)
  | none => []
  | some db => db.products

/-- `save_product(name, data)`: no-op when `db is None`, else
`replace_one({'_id': name}, data, upsert=True)`. -/
def save_product (name : String) (data : Product) : Option DB → Option DB
  | none => none
  | some db => some { db with products := aset name data db.products }

/-- `delete_product_db(name)`: no-op when `db is None`, else
`delete_one({'_id': name})`. -/
def delete_product_db (name : String) : Option DB → Option DB
  | none => none
  | some db => some { db with products := aremove name db.products }

/-- `get_all_payments()`: `{}` when `db is None` or the `global_payments`
document is absent, else its `methods` field. -/
def get_all_payments : Option DB → List (String × String)
  | none => []
  | some db => db.paymentsDoc.getD []

/-- `save_payment(method, link)`: no-op when `db is None`, else
`update_one({'_id': 'global_payments'}, {'$set': {'methods.<method>': link}}, upsert=True)`. -/
def save_payment (method link : String) : Option DB → Option DB
  | none => none
  | some db => some { db with paymentsDoc := some (aset method link (db.paymentsDoc.getD [])) }

/-- The `!addproduct` handler body: builds
`{'price': price, 'role_id': role.id, 'role_name': role.name, 'links': {}}`
and calls `save_product`. -/
def add_product (name price : String) (roleId : Nat) (roleName : String)
    (dbp : Option DB) : Option DB :=
  save_product name { price := price, role_id := roleId, role_name := roleName, links := [] } dbp

/-- `update_one({'_id': pname}, {'$set': {'links.<method>': link}})`: merge one
key into the unique matching product's `links` map. -/
def setLinkFirst (pname method link : String) : List (String × Product) → List (String × Product)
  | [] => []
  | (k, v) :: rest =>
    if k = pname then (k, { v with links := aset method link v.links }) :: rest
    else (k, v) :: setLinkFirst pname method link rest

/-- The `!linkproduct` handler body: checks the product exists (via
`get_all_products`), then writes under `if db:` (with `db = None` the guard is
false and nothing is written). Returns the messages sent and the new state. -/
def link_product (product_name method link : String) (dbp : Option DB) :
    List String × Option DB :=
  match alookup product_name (get_all_products dbp) with
  | none => (["❌ Product not found."], dbp)
  | some _ =>
    let dbp' : Option DB :=
      match dbp with
      | none => none
      | some db => some { db with products := setLinkFirst product_name method link db.products }
    (["🔗 Linked " ++ method ++ " for " ++ product_name ++ " to: <" ++ link ++ ">"], dbp')

/-- The merge performed in `ProductSelect.callback`:
`final_payments = global_payments.copy(); final_payments.update(specific_links)`. -/
def final_payments (global_payments specific_links : List (String × String)) :
    List (String × String) :=
  dict_update global_payments specific_links

/-! ## Python `int()` on strings

`give_role_async` runs `int(user_id)` inside the guild loop; `int` on a
string accepts optional surrounding whitespace, an optional sign, and ASCII
decimal digits with single underscores between digits, and raises
`ValueError` otherwise (non-ASCII digit forms are outside this model). -/

/-- Strip leading and trailing whitespace (Python `str.strip()` as performed
by `int()`). -/
def pyStrip (l : List Char) : List Char :=
  ((l.dropWhile (fun c => c.isWhitespace)).reverse.dropWhile (fun c => c.isWhitespace)).reverse

/-- Digits after the first one: plain digits, or a single underscore followed
by a digit; returns the digits with underscores removed, `none` on a bad run. -/
def pyDigitRest : List Char → Option (List Char)
  | [] => some []
  | '_' :: [] => none
  | '_' :: c :: rest => if c.isDigit then (pyDigitRest rest).map (fun ds => c :: ds) else none
  | c :: rest => if c.isDigit then (pyDigitRest rest).map (fun ds => c :: ds) else none

/-- An unsigned digit run: nonempty, starts with a digit. -/
def pyDigitRun (l : List Char) : Option (List Char) :=
  match l with
  | [] => none
  | c :: rest => if c.isDigit then (pyDigitRest rest).map (fun ds => c :: ds) else none

/-- Numeric value of a digit list. -/
def digitsToNat (ds : List Char) : Nat :=
  ds.foldl (fun a c => a * 10 + (c.toNat - ('0').toNat)) 0

/-- Python `int(s)` for `s : str`: `some` value, or `none` when it raises
`ValueError`. -/
def pyIntParse (s : String) : Option Int :=
  match pyStrip s.toList with
  | '+' :: rest => (pyDigitRun rest).map (fun ds => Int.ofNat (digitsToNat ds))
  | '-' :: rest => (pyDigitRun rest).map (fun ds => -Int.ofNat (digitsToNat ds))
  | l => (pyDigitRun l).map (fun ds => Int.ofNat (digitsToNat ds))

/-! ## Fulfillment: `give_role_async` -/

/-- A guild as seen through the Discord cache calls the code makes:
`get_member` by integer id (yielding the member's display name) and
`get_role` by role id (yielding the role's name). -/
structure Guild where
  members : List (Int × String)
  roles : List (Nat × String)
deriving DecidableEq, Repr

/-- `guild.get_member(uid)`. -/
def Guild.getMemberName (g : Guild) (uid : Int) : Option String :=
  (g.members.find? (fun p => p.1 = uid)).map (fun p => p.2)

/-- `guild.get_role(rid)`. -/
def Guild.getRoleName (g : Guild) (rid : Nat) : Option String :=
  (g.roles.find? (fun p => p.1 = rid)).map (fun p => p.2)

/-- Discord API calls performed by the fulfillment path. -/
inductive PlatformCall
  | getMember (uid : Int)
  | getRole (rid : Nat)
  | addRoles (uid : Int) (rid : Nat)
  | sendDM (uid : Int)
deriving DecidableEq, Repr

/-- The only uncaught exception the fulfillment path can raise:
`ValueError` from `int(user_id)` (`add_roles` failures are caught by the
surrounding `try`, a closed DM by the inner `try`). -/
inductive PyErr
  | valueError
deriving DecidableEq, Repr

/-- The `for guild in bot.guilds` loop of `give_role_async`: evaluates
`int(user_id)` when a guild is examined, looks the member up, and on the
first guild containing the member resolves the role, grants it (the grant and
the best-effort DM are modelled as succeeding) and `break`s. Returns the
`print` log lines and the platform calls made. -/
def roleLoop (role_id : Nat) (user_id : String) :
    List Guild → Except PyErr (List String × List PlatformCall)
  | [] => .ok ([], [])
  | g :: rest =>
    match pyIntParse user_id with
    | none => .error .valueError
    | some uid =>
      match g.getMemberName uid with
      | none =>
        (roleLoop role_id user_id rest).map
          (fun r => (r.1, PlatformCall.getMember uid :: r.2))
      | some mname =>
        match g.getRoleName role_id with
        | none => .ok ([], [.getMember uid, .getRole role_id])
        | some rname =>
          .ok (["Given role " ++ rname ++ " to " ++ mname],
            [.getMember uid, .getRole role_id, .addRoles uid role_id, .sendDM uid])

/-- `give_role_async(user_id, product_name)`: look the product up in the
catalog; missing → log and return with no platform call; otherwise resolve
the role id and run the guild loop. -/
def give_role_async (dbp : Option DB) (guilds : List Guild)
    (user_id product_name : String) : Except PyErr (List String × List PlatformCall) :=
  let products := get_all_products dbp
  match alookup product_name products with
  | none => .ok (["Webhook Error: Product " ++ product_name ++ " not found."], [])
  | some prod => roleLoop prod.role_id user_id guilds

/-! ## Webhook verifier (`POST /webhook`) -/

/-- Failures of `stripe.Webhook.construct_event`: `ValueError` (malformed
payload) or `stripe.error.SignatureVerificationError`. -/
inductive ConstructError
  | valueError
  | signatureVerification
deriving DecidableEq, Repr

/-- The `data.object` of a Stripe event: `client_reference_id` and the
`metadata` dict (`session.get` yields `None` when a field is absent). -/
structure StripeSession where
  client_reference_id : Option String
  metadata : Option (List (String × String))
deriving DecidableEq, Repr

/-- A verified Stripe event: its `type` and `data.object`. -/
structure StripeEvent where
  type : String
  dataObject : StripeSession
deriving DecidableEq, Repr

/-- The JSON body of a shared-secret (SellApp) request, field values as
`request.get_json()[…].get(…)` returns them (`none` = field absent). -/
structure JsonBody where
  secret : Option String
  product_name : Option String
  discord_user_id : Option String
deriving DecidableEq, Repr

/-- An inbound `POST /webhook` request: the `Stripe-Signature` header value
and the parsed JSON body (`none` stands for a falsy `get_json()` result —
no body or an empty object — which yields the `No data` response). -/
structure WebhookRequest where
  sigHeader : Option String
  jsonData : Option JsonBody
deriving DecidableEq, Repr

/-- The configured secrets: `STRIPE_SECRET` and `SELLAPP_SECRET`
(`os.getenv` yields `None` when unset). -/
structure Config where
  stripeSecret : Option String
  sellappSecret : Option String
deriving DecidableEq, Repr

/-- The HTTP responses the handler can produce; `serverError500` stands for
an exception escaping the handler (the framework then answers 5xx, not 200). -/
inductive WebhookResponse
  | success200
  | invalidPayload400
  | invalidSignature400
  | noData400
  | unauthorized403
  | serverError500
deriving DecidableEq, Repr

/-- What a `POST /webhook` request did: the response, the
`give_role_async(user_id, product_name)` calls made, the `print` log lines
(the handler's own and those of the fulfillment calls), and the platform
calls of the fulfillment calls. -/
structure WebhookOutcome where
  response : WebhookResponse
  fulfillCalls : List (String × String)
  logs : List String
  platformCalls : List PlatformCall
deriving DecidableEq, Repr

/-- Python truthiness of an optional string (`if sig_header and …`,
`if product_name and user_id`): present and nonempty. -/
def optTruthy : Option String → Bool
  | none => false
  | some s => !s.isEmpty

/-- The `/webhook` handler. `sigResult` is the outcome of
`stripe.Webhook.construct_event(payload, sig_header, STRIPE_SECRET)`,
consulted only on the Stripe branch; `dbp` and `guilds` feed the
fulfillment calls. -/
def webhook (cfg : Config) (req : WebhookRequest)
    (sigResult : Except ConstructError StripeEvent)
    (dbp : Option DB) (guilds : List Guild) : WebhookOutcome :=
  -- --- STRIPE HANDLER --- `if sig_header and STRIPE_SECRET:`
  if optTruthy req.sigHeader && optTruthy cfg.stripeSecret then
    match sigResult with
    | .error .valueError => ⟨.invalidPayload400, [], [], []⟩
    | .error .signatureVerification => ⟨.invalidSignature400, [], [], []⟩
    | .ok event =>
      if event.type = "checkout.session.completed" then
        let session := event.dataObject
        let user_id := session.client_reference_id
        let metadata := session.metadata.getD []
        let product_name := alookup "product_name" metadata
        if optTruthy user_id && optTruthy product_name then
          let u := user_id.getD ""
          let p := product_name.getD ""
          let log := "✅ Stripe Payment: " ++ p ++ " for User " ++ u
          match give_role_async dbp guilds u p with
          | .error _ => ⟨.serverError500, [(u, p)], [log], []⟩
          | .ok r => ⟨.success200, [(u, p)], log :: r.1, r.2⟩
        else ⟨.success200, [], [], []⟩
      else ⟨.success200, [], [], []⟩
  else
    -- --- SELLAPP / CUSTOM HANDLER ---
    match req.jsonData with
    | none => ⟨.noData400, [], [], []⟩
    | some body =>
      -- `if SELLAPP_SECRET and secret_received == SELLAPP_SECRET:`
      let secretMatches :=
        match cfg.sellappSecret with
        | none => false
        | some s => !s.isEmpty && body.secret == some s
      if secretMatches then
        let product_name := body.product_name
        let user_id := body.discord_user_id
        if optTruthy product_name && optTruthy user_id then
          let p := product_name.getD ""
          let u := user_id.getD ""
          let log := "✅ SellApp Payment: " ++ p ++ " for User " ++ u
          match give_role_async dbp guilds u p with
          | .error _ => ⟨.serverError500, [(u, p)], [log], []⟩
          | .ok r => ⟨.success200, [(u, p)], log :: r.1, r.2⟩
        else ⟨.unauthorized403, [], [], []⟩
      else ⟨.unauthorized403, [], [], []⟩

/-! ## Manual-review ticket: `TicketAdminView.approve` -/

/-- The state a `TicketAdminView` carries: the attested product and the
purchasing user's id. -/
structure Ticket where
  product_name : String
  user_id : Int
deriving DecidableEq, Repr

/-- The interaction context of a button click: whether the clicking user has
`guild_permissions.administrator`, and the guild the ticket channel is in. -/
structure Interaction where
  isAdmin : Bool
  guild : Guild
deriving DecidableEq, Repr

/-- Observable effects of the `approve` handler. -/
inductive Effect
  | sendEphemeral (msg : String)
  | sendResponse (msg : String)
  | catalogRead
  | addRoles (uid : Int) (rid : Nat)
  | channelSend (msg : String)
  | channelDelete
deriving DecidableEq, Repr

/-- The `Approve & Give Role` button callback: admin gate first, then the
catalog re-check, then role/member resolution, grant, announcement and
delayed channel deletion (the grant and deletion are modelled as
succeeding). -/
def approve (t : Ticket) (i : Interaction) (dbp : Option DB) : List Effect :=
  if !i.isAdmin then [.sendEphemeral "❌ Only Admins can approve."]
  else
    let products := get_all_products dbp
    match alookup t.product_name products with
    | none => [.catalogRead, .sendEphemeral "❌ Product no longer exists."]
    | some prod =>
      match i.guild.getRoleName prod.role_id, i.guild.getMemberName t.user_id with
      | some rname, some mname =>
        [.catalogRead, .addRoles t.user_id prod.role_id,
          .sendResponse ("✅ Approved! " ++ rname ++ " given to " ++ mname ++ "."),
          .channelSend "Ticket will close in 5 seconds...", .channelDelete]
      | _, _ => [.catalogRead, .sendEphemeral "❌ Error: Role or Member not found."]

/-! ## Association-list lemmas -/

theorem alookup_aset_self (k : String) (v : α) (l : List (String × α)) :
    alookup k (aset k v l) = some v := by
  induction l with
  | nil => simp [aset, alookup]
  | cons p rest ih =>
    obtain ⟨k', v'⟩ := p
    by_cases h : k' = k
    · simp [aset, alookup, h]
    · simp [aset, alookup, h, ih]

theorem alookup_aremove_self (k : String) (l : List (String × α)) :
    alookup k (aremove k l) = none := by
  induction l with
  | nil => rfl
  | cons p rest ih =>
    obtain ⟨k', v'⟩ := p
    by_cases h : k' = k
    · simpa [aremove, List.filter_cons, h] using ih
    · simpa [aremove, List.filter_cons, h, alookup] using ih

theorem aremove_eq_self (k : String) (l : List (String × α))
    (h : alookup k l = none) : aremove k l = l := by
  induction l with
  | nil => rfl
  | cons p rest ih =>
    obtain ⟨k', v'⟩ := p
    by_cases hk : k' = k
    · simp [alookup, hk] at h
    · simp [alookup, hk] at h
      simp [aremove, List.filter_cons, hk] at ih ⊢
      exact ih h

theorem alookup_append (k : String) (l₁ l₂ : List (String × α)) :
    alookup k (l₁ ++ l₂) = (alookup k l₁).or (alookup k l₂) := by
  induction l₁ with
  | nil => rfl
  | cons p rest ih =>
    obtain ⟨k', v'⟩ := p
    by_cases h : k' = k
    · simp [alookup, h]
    · simp [alookup, h, ih]

theorem alookup_map_override (k : String) (g s : List (String × α)) :
    alookup k (g.map (fun p => (p.1, (alookup p.1 s).getD p.2))) =
      (alookup k g).map (fun v => (alookup k s).getD v) := by
  induction g with
  | nil => rfl
  | cons p rest ih =>
    obtain ⟨k', v'⟩ := p
    by_cases h : k' = k
    · subst h
      simp [alookup]
    · simp [alookup, h, ih]

theorem alookup_filter_not_in (k : String) (g s : List (String × α))
    (h : alookup k g = none) :
    alookup k (s.filter (fun p => (alookup p.1 g).isNone)) = alookup k s := by
  induction s with
  | nil => rfl
  | cons p rest ih =>
    obtain ⟨k', v'⟩ := p
    by_cases hk : k' = k
    · subst hk
      simp [List.filter_cons, h, alookup]
    · by_cases hc : (alookup k' g).isNone
      · simp [List.filter_cons, hc, alookup, hk, ih]
      · simp [List.filter_cons, hc, alookup, hk, ih]

theorem alookup_dict_update (k : String) (g s : List (String × α)) :
    alookup k (dict_update g s) = (alookup k s).or (alookup k g) := by
  rw [dict_update, alookup_append, alookup_map_override]
  cases hg : alookup k g with
  | some v => cases hs : alookup k s <;> simp [hs, Option.or]
  | none =>
    rw [alookup_filter_not_in k g s hg]
    cases hs : alookup k s <;> simp [Option.or]

theorem dict_update_eq_nil (g s : List (String × α)) :
    dict_update g s = [] ↔ g = [] ∧ s = [] := by
  constructor
  · intro h
    rw [dict_update, List.append_eq_nil] at h
    obtain ⟨h1, h2⟩ := h
    have hg : g = [] := List.map_eq_nil_iff.mp h1
    subst hg
    have hfil : s.filter (fun p => (alookup p.1 ([] : List (String × α))).isNone) = s :=
      List.filter_eq_self.mpr (fun a _ => rfl)
    rw [hfil] at h2
    exact ⟨rfl, h2⟩
  · rintro ⟨rfl, rfl⟩
    rfl

theorem optTruthy_none : optTruthy none = false := rfl

/-! ## Claim theorems -/

/-- C4: for every product name `n` and every catalog state, `delete_product_db n`
followed by `get_all_products` yields a mapping without `n`, whether or not `n`
existed; and deleting a name that is absent leaves the state unchanged (a
no-op, not an error). -/
theorem delete_then_get_not_contains (dbp : Option DB) (n : String) :
    alookup n (get_all_products (delete_product_db n dbp)) = none ∧
    (alookup n (get_all_products dbp) = none → delete_product_db n dbp = dbp) := by
  constructor
  · cases dbp with
    | none => rfl
    | some db =>
      simpa [delete_product_db, get_all_products] using alookup_aremove_self n db.products
  · intro h
    cases dbp with
    | none => rfl
    | some db =>
      simp only [get_all_products] at h
      simp [delete_product_db, aremove_eq_self n db.products h]

/-- Witness for C4: deleting `"Gold"` from a store that never contained it is a
no-op, and the result does not contain `"Gold"`. -/
theorem delete_then_get_not_contains_witness :
    alookup "Gold" (get_all_products (delete_product_db "Gold"
      (some ⟨[("VIP", ⟨"10.00", 5, "VIP", []⟩)], none⟩))) = none ∧
    delete_product_db "Gold" (some ⟨[("VIP", ⟨"10.00", 5, "VIP", []⟩)], none⟩) =
      some ⟨[("VIP", ⟨"10.00", 5, "VIP", []⟩)], none⟩ :=
  ⟨(delete_then_get_not_contains (some ⟨[("VIP", ⟨"10.00", 5, "VIP", []⟩)], none⟩) "Gold").1,
   (delete_then_get_not_contains (some ⟨[("VIP", ⟨"10.00", 5, "VIP", []⟩)], none⟩) "Gold").2
     (by decide)⟩

/-- C5: the effective payment-method set built in `ProductSelect.callback`
(`final_payments = global.copy(); final_payments.update(specific)`) is the
global mapping overlaid by the product links with product entries winning on
every key collision; it is empty exactly when both inputs are empty; and the
spec's concrete example `global = A:u1, B:u2`, `links = B:u3` yields
`A:u1, B:u3`. -/
theorem resolve_effective_methods_spec (g s : List (String × String)) :
    (∀ k, alookup k (final_payments g s) = (alookup k s).or (alookup k g)) ∧
    (final_payments g s = [] ↔ g = [] ∧ s = []) ∧
    final_payments [("A", "u1"), ("B", "u2")] [("B", "u3")] =
      [("A", "u1"), ("B", "u3")] :=
  ⟨fun k => alookup_dict_update k g s, dict_update_eq_nil g s, by decide⟩

/-- Witness for C5: on the spec's example, the product link wins for `B`. -/
theorem resolve_effective_methods_spec_witness :
    alookup "B" (final_payments [("A", "u1"), ("B", "u2")] [("B", "u3")]) = some "u3" :=
  (resolve_effective_methods_spec [("A", "u1"), ("B", "u2")] [("B", "u3")]).1 "B"

/-- C6: `!addproduct` under an existing name (even one carrying a non-empty
`links` map) fully replaces the stored record: the new record has exactly the
supplied price, role id and role name, and its `links` map is reset to empty. -/
theorem add_product_replaces (db : DB) (n price : String) (rid : Nat) (rname : String)
    (old : Product) (h : alookup n db.products = some old) :
    alookup n (get_all_products (add_product n price rid rname (some db))) =
      some { price := price, role_id := rid, role_name := rname, links := [] } := by
  simp [add_product, save_product, get_all_products, alookup_aset_self]

/-- Witness for C6: re-adding `"VIP"` over a record with a non-empty link map
yields the fresh record with empty links. -/
theorem add_product_replaces_witness :
    alookup "VIP" (get_all_products (add_product "VIP" "10.00" 5 "VIP"
      (some ⟨[("VIP", ⟨"5.00", 3, "Old", [("PayPal", "u")]⟩)], none⟩))) =
      some ⟨"10.00", 5, "VIP", []⟩ :=
  add_product_replaces ⟨[("VIP", ⟨"5.00", 3, "Old", [("PayPal", "u")]⟩)], none⟩
    "VIP" "10.00" 5 "VIP" ⟨"5.00", 3, "Old", [("PayPal", "u")]⟩ (by decide)

/-- C9: with no database handle (`db is None`), every catalog and
payment-method operation degrades to a stateless no-op: the reads return
empty mappings and the writes (`save_product`, `delete_product_db`,
`save_payment`, and the `!linkproduct` write) change nothing and do not
raise (each wrapper returns before touching the collections). -/
theorem no_db_degrades_to_noop :
    get_all_products none = [] ∧
    get_all_payments none = [] ∧
    (∀ n p, save_product n p none = none) ∧
    (∀ n, delete_product_db n none = none) ∧
    (∀ m l, save_payment m l none = none) ∧
    (∀ pn m l, link_product pn m l none = (["❌ Product not found."], none)) :=
  ⟨rfl, rfl, fun _ _ => rfl, fun _ => rfl, fun _ _ => rfl, fun _ _ _ => rfl⟩

/-- Witness for C9: a concrete write against the absent database is a no-op. -/
theorem no_db_degrades_to_noop_witness :
    save_product "VIP" ⟨"10.00", 5, "VIP", []⟩ none = none :=
  no_db_degrades_to_noop.2.2.1 "VIP" ⟨"10.00", 5, "VIP", []⟩

/-- C1 counterexample: a shared-secret request (no signature header) whose
`secret` matches the configured value but whose `product_name` is absent gets
`Unauthorized` (HTTP 403), not the `Invalid payload` 400 the claim asserts —
the handler's inner field check falls through to the final 403 return. -/
theorem shared_secret_missing_product_counterexample :
    (webhook ⟨none, some "sek"⟩ ⟨none, some ⟨some "sek", none, some "123"⟩⟩
        (.error .valueError) none []).response = .unauthorized403 ∧
    (webhook ⟨none, some "sek"⟩ ⟨none, some ⟨some "sek", none, some "123"⟩⟩
        (.error .valueError) none []).response ≠ .invalidPayload400 := by
  decide

/-- C1 (amended): a shared-secret request with a matching `secret` but an
absent `product_name` yields `Unauthorized` (HTTP 403), not `MalformedPayload`
(HTTP 400), and no fulfillment call is made. -/
theorem shared_secret_missing_product_unauthorized (s : String) (uid st : Option String)
    (sr : Except ConstructError StripeEvent) (dbp : Option DB) (guilds : List Guild) :
    (webhook ⟨st, some s⟩ ⟨none, some ⟨some s, none, uid⟩⟩ sr dbp guilds).response =
      .unauthorized403 ∧
    (webhook ⟨st, some s⟩ ⟨none, some ⟨some s, none, uid⟩⟩ sr dbp guilds).fulfillCalls = [] := by
  by_cases hse : s.isEmpty <;> simp [webhook, optTruthy, hse]

/-- C2: on the signed-provider path (signature header present, verification
secret configured), a body failing signature verification yields
`Invalid signature` (HTTP 400) and no fulfillment call — the handler never
falls through to the shared-secret path. -/
theorem invalid_signature_rejected (cfg : Config) (req : WebhookRequest)
    (dbp : Option DB) (guilds : List Guild)
    (hsig : optTruthy req.sigHeader = true) (hsec : optTruthy cfg.stripeSecret = true) :
    (webhook cfg req (.error .signatureVerification) dbp guilds).response =
      .invalidSignature400 ∧
    (webhook cfg req (.error .signatureVerification) dbp guilds).fulfillCalls = [] := by
  simp [webhook, hsig, hsec]

/-- Witness for C2: a concrete signed request with a failing signature is
rejected with `Invalid signature` and triggers no fulfillment. -/
theorem invalid_signature_rejected_witness :
    (webhook ⟨some "whsec", some "sek"⟩ ⟨some "t=1,v1=x", none⟩
        (.error .signatureVerification) none []).response = .invalidSignature400 ∧
    (webhook ⟨some "whsec", some "sek"⟩ ⟨some "t=1,v1=x", none⟩
        (.error .signatureVerification) none []).fulfillCalls = [] :=
  invalid_signature_rejected ⟨some "whsec", some "sek"⟩ ⟨some "t=1,v1=x", none⟩ none []
    (by decide) (by decide)

/-- C3: `give_role_async` on an event whose product is not in the catalog
logs the product-not-found line and performs zero platform API calls — no
member lookup, no role lookup, no role grant, no DM. -/
theorem product_unknown_no_platform_calls (dbp : Option DB) (guilds : List Guild)
    (u p : String) (h : alookup p (get_all_products dbp) = none) :
    give_role_async dbp guilds u p =
      .ok (["Webhook Error: Product " ++ p ++ " not found."], []) := by
  simp [give_role_async, h]

/-- Witness for C3: a deleted product yields the log line and an empty
platform-call trace even with a member and a role available in a guild. -/
theorem product_unknown_no_platform_calls_witness :
    give_role_async (some ⟨[], none⟩) [⟨[(1, "alice")], [(5, "VIP")]⟩] "1" "VIP" =
      .ok (["Webhook Error: Product " ++ "VIP" ++ " not found."], []) :=
  product_unknown_no_platform_calls (some ⟨[], none⟩) [⟨[(1, "alice")], [(5, "VIP")]⟩]
    "1" "VIP" (by decide)

/-- C7 counterexample: a verified completed-checkout event with the
`product_name` metadata absent is dropped with HTTP 200 and no fulfillment
call, but — contrary to the claim — nothing is logged: the handler's only
`print` sits inside the both-fields-present branch. -/
theorem stripe_drop_not_logged_counterexample :
    (webhook ⟨some "whsec", none⟩ ⟨some "sig", none⟩
        (.ok ⟨"checkout.session.completed", ⟨some "123", some []⟩⟩) none []).logs = [] ∧
    (webhook ⟨some "whsec", none⟩ ⟨some "sig", none⟩
        (.ok ⟨"checkout.session.completed", ⟨some "123", some []⟩⟩) none []).fulfillCalls = [] ∧
    (webhook ⟨some "whsec", none⟩ ⟨some "sig", none⟩
        (.ok ⟨"checkout.session.completed", ⟨some "123", some []⟩⟩) none []).response =
      .success200 := by
  decide

/-- C7 (amended): on the signed-provider path, a verified completed-checkout
event whose user-reference field or product-name metadata field is absent is
dropped without any log line — no fulfillment call is made — yet the HTTP
response is still 200 success, so the provider does not retry. -/
theorem stripe_malformed_dropped_with_200 (cfg : Config) (req : WebhookRequest)
    (dbp : Option DB) (guilds : List Guild) (ev : StripeEvent)
    (hsig : optTruthy req.sigHeader = true) (hsec : optTruthy cfg.stripeSecret = true)
    (hty : ev.type = "checkout.session.completed")
    (hmiss : ev.dataObject.client_reference_id = none ∨
      alookup "product_name" (ev.dataObject.metadata.getD []) = none) :
    (webhook cfg req (.ok ev) dbp guilds).response = .success200 ∧
    (webhook cfg req (.ok ev) dbp guilds).fulfillCalls = [] ∧
    (webhook cfg req (.ok ev) dbp guilds).logs = [] := by
  cases hmiss with
  | inl h => simp [webhook, hsig, hsec, hty, h, optTruthy_none]
  | inr h => simp [webhook, hsig, hsec, hty, h, optTruthy_none]

/-- Witness for C7 (amended): concrete verified completed checkout with no
`product_name` metadata — dropped, unlogged, 200. -/
theorem stripe_malformed_dropped_with_200_witness :
    (webhook ⟨some "whsec", none⟩ ⟨some "sig", none⟩
        (.ok ⟨"checkout.session.completed", ⟨some "123", none⟩⟩) none []).response =
      .success200 ∧
    (webhook ⟨some "whsec", none⟩ ⟨some "sig", none⟩
        (.ok ⟨"checkout.session.completed", ⟨some "123", none⟩⟩) none []).fulfillCalls = [] ∧
    (webhook ⟨some "whsec", none⟩ ⟨some "sig", none⟩
        (.ok ⟨"checkout.session.completed", ⟨some "123", none⟩⟩) none []).logs = [] :=
  stripe_malformed_dropped_with_200 ⟨some "whsec", none⟩ ⟨some "sig", none⟩ none []
    ⟨"checkout.session.completed", ⟨some "123", none⟩⟩
    (by decide) (by decide) rfl (Or.inr rfl)

/-- C8: the `Approve` button clicked by a non-admin only sends the ephemeral
refusal — the fulfillment engine is never invoked: no catalog read, no role
grant, and no ticket-channel deletion. -/
theorem non_admin_approve_no_fulfillment (t : Ticket) (i : Interaction) (dbp : Option DB)
    (h : i.isAdmin = false) :
    approve t i dbp = [.sendEphemeral "❌ Only Admins can approve."] ∧
    (∀ uid rid, Effect.addRoles uid rid ∉ approve t i dbp) ∧
    Effect.channelDelete ∉ approve t i dbp ∧
    Effect.catalogRead ∉ approve t i dbp := by
  have he : approve t i dbp = [.sendEphemeral "❌ Only Admins can approve."] := by
    simp [approve, h]
  refine ⟨he, fun uid rid => ?_, ?_, ?_⟩ <;> rw [he] <;> simp

/-- Witness for C8: a concrete non-admin click on a ticket whose product
exists and whose member and role are present still does nothing but refuse. -/
theorem non_admin_approve_no_fulfillment_witness :
    approve ⟨"VIP", 1⟩ ⟨false, ⟨[(1, "alice")], [(5, "VIP")]⟩⟩
        (some ⟨[("VIP", ⟨"10.00", 5, "VIP", []⟩)], none⟩) =
      [.sendEphemeral "❌ Only Admins can approve."] :=
  (non_admin_approve_no_fulfillment ⟨"VIP", 1⟩ ⟨false, ⟨[(1, "alice")], [(5, "VIP")]⟩⟩
    (some ⟨[("VIP", ⟨"10.00", 5, "VIP", []⟩)], none⟩) rfl).1

/-- C10: when the normalized event's `external_user_id` is not a
decimal-integer string, the product exists, and the bot is in at least one
guild, `give_role_async` raises `ValueError` at `int(user_id)`; the
`/webhook` request that made the call therefore fails (5xx) instead of
returning 200 success. -/
theorem bad_user_id_raises (dbp : Option DB) (g : Guild) (gs : List Guild)
    (u p s : String) (prod : Product)
    (hparse : pyIntParse u = none)
    (hprod : alookup p (get_all_products dbp) = some prod)
    (hu : optTruthy (some u) = true) (hp : optTruthy (some p) = true)
    (hs : optTruthy (some s) = true) :
    give_role_async dbp (g :: gs) u p = .error .valueError ∧
    (webhook ⟨none, some s⟩ ⟨none, some ⟨some s, some p, some u⟩⟩
        (.error .valueError) dbp (g :: gs)).response = .serverError500 := by
  have hraise : give_role_async dbp (g :: gs) u p = .error .valueError := by
    simp [give_role_async, hprod, roleLoop, hparse]
  refine ⟨hraise, ?_⟩
  simp only [optTruthy, Bool.not_eq_true'] at hs hu hp
  simp [webhook, optTruthy, hs, hu, hp, hraise]

/-- Witness for C10: user id `"abc"` with an existing product and one guild —
the fulfillment call raises and the webhook request fails. -/
theorem bad_user_id_raises_witness :
    give_role_async (some ⟨[("VIP", ⟨"10.00", 5, "VIP", []⟩)], none⟩) [⟨[], []⟩] "abc" "VIP" =
      .error .valueError ∧
    (webhook ⟨none, some "sek"⟩ ⟨none, some ⟨some "sek", some "VIP", some "abc"⟩⟩
        (.error .valueError) (some ⟨[("VIP", ⟨"10.00", 5, "VIP", []⟩)], none⟩)
        [⟨[], []⟩]).response = .serverError500 :=
  bad_user_id_raises (some ⟨[("VIP", ⟨"10.00", 5, "VIP", []⟩)], none⟩) ⟨[], []⟩ []
    "abc" "VIP" "sek" ⟨"10.00", 5, "VIP", []⟩
    (by decide) (by decide) (by decide) (by decide) (by decide)

end DiscordShopBot
